import Mathlib

/-
Verification of the alarm scheduling and persistence logic of the
BellNewsV4 repository.

The sources embedded here are the two alarm-service variants:
  - bellapp/nano_web_timer.py      (the "nano" variant: 1-second tick loop,
    `get_alarms` / `save_alarms` / `safe_file_write` / `alarm_loop` /
    `set_alarm` / `edit_alarm` / `play_sound`)
  - bellapp/vcns_timer_service.py  (the "service" variant: 30-second tick
    with a new-minute guard, `load_alarms` / `save_alarms` / `check_alarms` /
    `add_alarm` / `edit_alarm` / `play_sound`, `MAX_ALARMS`)

Python values read from the alarm JSON file are modelled by the `Json`
inductive below; Python exceptions are modelled with `Except PyErr`;
the file system is modelled by explicit states (a set of existing sound
files for existence checks, and a small rename/write trace semantics for
the atomic-persist claims).
-/

namespace BellNews

/-! ### JSON values (result of Python `json.load`) -/

inductive Json where
  | null : Json
  | bool (b : Bool) : Json
  | num (n : Int) : Json
  | str (s : String) : Json
  | arr (xs : List Json) : Json
  | obj (kvs : List (String × Json)) : Json
deriving Repr

mutual

def Json.decEq : (a b : Json) → Decidable (a = b)
  | .null, .null => isTrue rfl
  | .bool x, .bool y =>
      if h : x = y then isTrue (by rw [h]) else isFalse (fun hh => by cases hh; exact h rfl)
  | .num x, .num y =>
      if h : x = y then isTrue (by rw [h]) else isFalse (fun hh => by cases hh; exact h rfl)
  | .str x, .str y =>
      if h : x = y then isTrue (by rw [h]) else isFalse (fun hh => by cases hh; exact h rfl)
  | .arr xs, .arr ys =>
      match Json.decEqList xs ys with
      | isTrue h => isTrue (by rw [h])
      | isFalse h => isFalse (fun hh => by cases hh; exact h rfl)
  | .obj xs, .obj ys =>
      match Json.decEqKvs xs ys with
      | isTrue h => isTrue (by rw [h])
      | isFalse h => isFalse (fun hh => by cases hh; exact h rfl)
  | .null, .bool _ => isFalse (fun h => by cases h)
  | .null, .num _ => isFalse (fun h => by cases h)
  | .null, .str _ => isFalse (fun h => by cases h)
  | .null, .arr _ => isFalse (fun h => by cases h)
  | .null, .obj _ => isFalse (fun h => by cases h)
  | .bool _, .null => isFalse (fun h => by cases h)
  | .bool _, .num _ => isFalse (fun h => by cases h)
  | .bool _, .str _ => isFalse (fun h => by cases h)
  | .bool _, .arr _ => isFalse (fun h => by cases h)
  | .bool _, .obj _ => isFalse (fun h => by cases h)
  | .num _, .null => isFalse (fun h => by cases h)
  | .num _, .bool _ => isFalse (fun h => by cases h)
  | .num _, .str _ => isFalse (fun h => by cases h)
  | .num _, .arr _ => isFalse (fun h => by cases h)
  | .num _, .obj _ => isFalse (fun h => by cases h)
  | .str _, .null => isFalse (fun h => by cases h)
  | .str _, .bool _ => isFalse (fun h => by cases h)
  | .str _, .num _ => isFalse (fun h => by cases h)
  | .str _, .arr _ => isFalse (fun h => by cases h)
  | .str _, .obj _ => isFalse (fun h => by cases h)
  | .arr _, .null => isFalse (fun h => by cases h)
  | .arr _, .bool _ => isFalse (fun h => by cases h)
  | .arr _, .num _ => isFalse (fun h => by cases h)
  | .arr _, .str _ => isFalse (fun h => by cases h)
  | .arr _, .obj _ => isFalse (fun h => by cases h)
  | .obj _, .null => isFalse (fun h => by cases h)
  | .obj _, .bool _ => isFalse (fun h => by cases h)
  | .obj _, .num _ => isFalse (fun h => by cases h)
  | .obj _, .str _ => isFalse (fun h => by cases h)
  | .obj _, .arr _ => isFalse (fun h => by cases h)

def Json.decEqList : (a b : List Json) → Decidable (a = b)
  | [], [] => isTrue rfl
  | [], _ :: _ => isFalse (fun h => by cases h)
  | _ :: _, [] => isFalse (fun h => by cases h)
  | x :: xs, y :: ys =>
      match Json.decEq x y, Json.decEqList xs ys with
      | isTrue h1, isTrue h2 => isTrue (by rw [h1, h2])
      | isFalse h1, _ => isFalse (fun hh => by cases hh; exact h1 rfl)
      | _, isFalse h2 => isFalse (fun hh => by cases hh; exact h2 rfl)

def Json.decEqKvs : (a b : List (String × Json)) → Decidable (a = b)
  | [], [] => isTrue rfl
  | [], _ :: _ => isFalse (fun h => by cases h)
  | _ :: _, [] => isFalse (fun h => by cases h)
  | (k1, v1) :: xs, (k2, v2) :: ys =>
      match String.decEq k1 k2, Json.decEq v1 v2, Json.decEqKvs xs ys with
      | isTrue ha, isTrue hb, isTrue hc => isTrue (by rw [ha, hb, hc])
      | isFalse ha, _, _ => isFalse (fun hh => by cases hh; exact ha rfl)
      | _, isFalse hb, _ => isFalse (fun hh => by cases hh; exact hb rfl)
      | _, _, isFalse hc => isFalse (fun hh => by cases hh; exact hc rfl)

end

instance : DecidableEq Json := Json.decEq

/-! ### Python-semantics helpers -/

/-- Exceptions the embedded code can raise. -/
inductive PyErr where
  | keyError : PyErr
  | valueError : PyErr
  | typeError : PyErr
  | attributeError : PyErr
deriving DecidableEq, Repr

instance {ε α : Type} [DecidableEq ε] [DecidableEq α] : DecidableEq (Except ε α) :=
  fun a b =>
    match a, b with
    | .ok x, .ok y =>
        if h : x = y then isTrue (by rw [h])
        else isFalse (fun hh => by cases hh; exact h rfl)
    | .error x, .error y =>
        if h : x = y then isTrue (by rw [h])
        else isFalse (fun hh => by cases hh; exact h rfl)
    | .ok _, .error _ => isFalse (fun hh => by cases hh)
    | .error _, .ok _ => isFalse (fun hh => by cases hh)

/-- First binding of key `k` in an association list (Python dict lookup;
the alarm records in play have distinct keys). -/
def jlookup (kvs : List (String × Json)) (k : String) : Option Json :=
  match kvs with
  | [] => none
  | (k1, v) :: rest => if k1 = k then some v else jlookup rest k

/-- Python `a[k]` for a string key: `KeyError` when a dict lacks the key,
`TypeError` when `a` is not a dict (indexing a list/str/int with a string). -/
def Json.getItem : Json → String → Except PyErr Json
  | .obj kvs, k =>
      match jlookup kvs k with
      | some v => .ok v
      | none => .error .keyError
  | _, _ => .error .typeError

/-- Python `a.get(k)` returning `None` as `none`; `AttributeError` on non-dicts. -/
def Json.getAttrOpt : Json → String → Except PyErr (Option Json)
  | .obj kvs, k => .ok (jlookup kvs k)
  | _, _ => .error .attributeError

/-- Python `str(v)` as used when building alarm ids in an f-string.
Only string fields ever reach the equalities proved below, so the
composite cases need only be some fixed rendering. -/
def Json.pystr : Json → String
  | .null => "None"
  | .bool true => "True"
  | .bool false => "False"
  | .num n => toString n
  | .str s => s
  | .arr _ => "<list>"
  | .obj _ => "<dict>"

/-- Python `==` between a JSON value and a Python string: only equal string
values compare equal; any other value compares unequal (no exception). -/
def jstrEq (v : Json) (s : String) : Bool :=
  match v with
  | .str t => t = s
  | _ => false

/-- Python `v in listOfStrings` membership for a JSON value. -/
def jstrMem (v : Json) (days : List String) : Bool :=
  match v with
  | .str t => days.contains t
  | _ => false

/-- Python argument coercion where a `str` is required (`strptime`,
`Path / s`): non-strings raise `TypeError`. -/
def Json.asString : Json → Except PyErr String
  | .str s => .ok s
  | _ => .error .typeError

/-! ### Time strings (`datetime.strptime(s, "%H:%M")`) -/

/-- Numeric value of a digit string. -/
def digitsVal : List Char → Nat → Nat
  | [], acc => acc
  | c :: cs, acc => digitsVal cs (acc * 10 + (c.toNat - 48))

/-- One numeric field of a strptime pattern: one or two digits, at most
`maxVal` (hours cap at 23, minutes at 59). -/
def parseTimeField (cs : List Char) (maxVal : Nat) : Option Nat :=
  if cs.length = 0 ∨ 2 < cs.length then none
  else if cs.all Char.isDigit then
    let v := digitsVal cs 0
    if v ≤ maxVal then some v else none
  else none

/-- Splitting of the characters at each colon (the shape check of the
pattern: exactly one colon separating the two fields). -/
def splitColon : List Char → List (List Char)
  | [] => [[]]
  | c :: cs =>
      let r := splitColon cs
      if c = ':' then [] :: r
      else
        match r with
        | [] => [[c]]
        | g :: gs => (c :: g) :: gs

/-- Python `strptime(s, "%H:%M")`: success gives the (hour, minute)
pair, failure is a `ValueError` at the call sites. -/
def parseHHMM (s : String) : Option (Nat × Nat) :=
  match splitColon s.data with
  | [h, m] =>
      match parseTimeField h 23, parseTimeField m 59 with
      | some hv, some mv => some (hv, mv)
      | _, _ => none
  | _ => none

/-- Decimal digit as a character. -/
def digitChar (n : Nat) : Char :=
  Char.ofNat (48 + n)

/-- Two-digit zero padding used by `strftime("%H:%M")` (hours and
minutes are below 100 at every use). -/
def pad2 (n : Nat) : String :=
  String.mk [digitChar ((n / 10) % 10), digitChar (n % 10)]

/-- Python `strftime("%H:%M")` rendering of an (hour, minute) pair. -/
def formatHHMM (h m : Nat) : String :=
  pad2 h ++ ":" ++ pad2 m

/-- Weekday names, in the order of `valid_days` in nano_web_timer.py. -/
def validDays : List String :=
  ["Sunday", "Monday", "Tuesday", "Wednesday", "Thursday", "Friday", "Saturday"]

/-- Weekday names, in the order of `DAYS` in vcns_timer_service.py. -/
def serviceDays : List String :=
  ["Monday", "Tuesday", "Wednesday", "Thursday", "Friday", "Saturday", "Sunday"]

/-- The set of sound files that exist on disk, as the list of `sound`
field values `s` for which `(BASE_DIR / s).exists()` holds. -/
abbrev Env := List String

/-! ### The persisted alarms file -/

/-- Observable state of the alarms file for the load operations: absent,
present but not parseable as JSON, or a parsed JSON document. -/
inductive FileContent where
  | missing : FileContent
  | invalidJson : FileContent
  | doc (j : Json) : FileContent
deriving DecidableEq, Repr

/-! ### nano_web_timer.get_alarms (load with per-record validation) -/

/-- Validation of one record inside `get_alarms`:
`True`/`False` says whether the record is kept; `KeyError` cannot escape
(the code checks key presence first), a `ValueError` from `strptime` is
continue-d over (modelled as keep = false), but a `TypeError` (non-string
`time` passed to `strptime`, or non-string `sound` joined onto `BASE_DIR`)
escapes to the outer `except Exception` handler of `get_alarms`. -/
def nanoValidateRecord (env : Env) (a : Json) : Except PyErr Bool :=
  match a with
  | .obj kvs =>
      if (jlookup kvs "day").isNone ∨ (jlookup kvs "time").isNone ∨
          (jlookup kvs "label").isNone ∨ (jlookup kvs "sound").isNone then
        .ok false
      else
        let dayV := (jlookup kvs "day").getD .null
        if ¬ jstrMem dayV validDays then
          .ok false
        else
          match (jlookup kvs "time").getD .null with
          | .str ts =>
              match parseHHMM ts with
              | none => .ok false
              | some _ =>
                  match (jlookup kvs "sound").getD .null with
                  | .str ss => .ok (env.contains ss)
                  | _ => .error .typeError
          | _ => .error .typeError
  | _ => .ok false

/-- The validation loop of `get_alarms` over the parsed list; an escaping
exception aborts the whole loop. -/
def nanoValidateList (env : Env) : List Json → Except PyErr (List Json)
  | [] => .ok []
  | a :: rest => do
      let keep ← nanoValidateRecord env a
      let kept ← nanoValidateList env rest
      .ok (if keep then a :: kept else kept)

/-- Function `get_alarms()` of nano_web_timer.py as a function of the alarms-file
state and the existing sound files: a missing file, unparseable JSON, a
non-list document, and any exception escaping the validation loop all
produce the empty list; otherwise the validated records are returned.
(The chmod/chown calls and the PermissionError retry branch are
environmental and end, like every other failure, in the empty list.) -/
def nanoGetAlarms (disk : FileContent) (env : Env) : List Json :=
  match disk with
  | .missing => []
  | .invalidJson => []
  | .doc j =>
      match j with
      | .arr xs =>
          match nanoValidateList env xs with
          | .ok kept => kept
          | .error _ => []
      | _ => []

/-- Function `save_alarms(alarms)` of nano_web_timer.py, seen through its effect on
the alarms-file content: `json.dumps` of the list re-parses to the same
top-level array. -/
def nanoSaveContent (alarms : List Json) : FileContent :=
  .doc (.arr alarms)

/-! ### vcns_timer_service.load_alarms / save_alarms -/

/-- Python `len(v)` is defined exactly for sized values; `len` of a
number, boolean or `None` raises `TypeError`. -/
def jHasLen : Json → Bool
  | .str _ => true
  | .arr _ => true
  | .obj _ => true
  | _ => false

/-- Function `load_alarms()` of vcns_timer_service.py as a function of the previous
global `ALARMS` value and the file state. A missing file leaves the store
untouched; unparseable JSON and a non-dict document land in the
`except` handler which resets the store to `[]`; for a dict document the
store becomes `data.get('alarms', [])` verbatim — unless the subsequent
`len(ALARMS)` raises (non-sized value), which also lands in the handler. -/
def vcnsLoadAlarms (prev : Json) (disk : FileContent) : Json :=
  match disk with
  | .missing => prev
  | .invalidJson => .arr []
  | .doc j =>
      match j with
      | .obj kvs =>
          let v := (jlookup kvs "alarms").getD (.arr [])
          if jHasLen v then v else .arr []
      | _ => .arr []

/-- Function `save_alarms()` of vcns_timer_service.py, seen through the content it
leaves at the alarms path: `json.dump({'alarms': ALARMS})`. -/
def vcnsSaveContent (store : Json) : FileContent :=
  .doc (.obj [("alarms", store)])

/-- Load-then-save round trip of the nano variant. -/
def nanoRoundTrip (env : Env) (disk : FileContent) : FileContent :=
  nanoSaveContent (nanoGetAlarms disk env)

/-- Load-then-save round trip of the service variant. -/
def vcnsRoundTrip (prev : Json) (disk : FileContent) : FileContent :=
  vcnsSaveContent (vcnsLoadAlarms prev disk)

/-! ### File-system write traces (atomic persist)

The two save routines are sequences of file-system operations on three
paths: the target `alarms.json`, the temporary `.tmp` file, and (service
variant only) the `.bak` backup. A `write` can be interrupted mid-way,
leaving half-written data at its path; a `rename` is atomic
(`os.replace` / `Path.rename`). `saveTrace` collects every state an
observer (or a crash) can see during a save. -/

/-- Data visible at one path: nothing, a complete version `c`, or a
half-written attempt at version `c`. -/
inductive FileData where
  | absent : FileData
  | complete (c : Nat) : FileData
  | halfWritten (c : Nat) : FileData
deriving DecidableEq, Repr

/-- The three paths a save touches. -/
inductive SavePath where
  | target : SavePath
  | tmp : SavePath
  | bak : SavePath
deriving DecidableEq, Repr

/-- State of the three paths. -/
structure Disk where
  target : FileData
  tmp : FileData
  bak : FileData
deriving DecidableEq, Repr

def Disk.get (d : Disk) : SavePath → FileData
  | .target => d.target
  | .tmp => d.tmp
  | .bak => d.bak

def Disk.set (d : Disk) : SavePath → FileData → Disk
  | .target, v => { d with target := v }
  | .tmp, v => { d with tmp := v }
  | .bak, v => { d with bak := v }

/-- One file-system operation of a save routine. -/
inductive FsOp where
  | write (p : SavePath) (c : Nat) : FsOp
  | rename (src dst : SavePath) : FsOp
deriving DecidableEq, Repr

/-- Effect of a completed operation. -/
def applyFsOp (d : Disk) : FsOp → Disk
  | .write p c => d.set p (.complete c)
  | .rename src dst => (d.set dst (d.get src)).set src .absent

/-- States observable while an operation is in progress: a `write` can be
seen half done; a `rename` is atomic and exposes no intermediate state. -/
def midStates (d : Disk) : FsOp → List Disk
  | .write p c => [d.set p (.halfWritten c)]
  | .rename _ _ => []

/-- Every state observable during a sequence of operations, including the
initial and final states and every mid-write state. -/
def saveTrace (d : Disk) : List FsOp → List Disk
  | [] => [d]
  | op :: rest => d :: (midStates d op ++ saveTrace (applyFsOp d op) rest)

/-- Function `safe_file_write` of nano_web_timer.py (the writing steps of one
successful attempt): write the new content to `alarms.json.tmp`, flush
and fsync it, then `os.replace` it over the target. -/
def nanoSaveOps (c : Nat) : List FsOp :=
  [.write .tmp c, .rename .tmp .target]

/-- Function `save_alarms` of vcns_timer_service.py: first `ALARMS_FILE.rename`
to the `.bak` backup, then write the new document to the `.tmp` file,
then rename the `.tmp` file over the target. -/
def vcnsSaveOps (c : Nat) : List FsOp :=
  [.rename .target .bak, .write .tmp c, .rename .tmp .target]

/-- Disk before a save: the target holds the previous complete version. -/
def initDisk (oldC : Nat) : Disk :=
  { target := .complete oldC, tmp := .absent, bak := .absent }

/-! ### The nano scheduler tick (`alarm_loop` of nano_web_timer.py) -/

/-- Wall-clock instant observed at the top of one `alarm_loop` iteration:
`now.strftime("%A")`, `now.hour`, `now.minute`, `now.second`. -/
structure NanoNow where
  day : String
  hour : Nat
  minute : Nat
  second : Nat
deriving DecidableEq, Repr

/-- Mutable state of one tick: the `last_triggered` dedup set and the
playback dispatches (alarm ids) issued so far in this tick. -/
structure TickSt where
  lastTriggered : List String
  fired : List String
deriving DecidableEq, Repr

/-- The body of the per-alarm `try` block in `alarm_loop` (nano variant),
lines 393-412 of nano_web_timer.py. Raises `KeyError` for a missing key,
`ValueError` for an unparseable time string, `TypeError` for a non-dict
record or non-string `time`/`sound` values reaching `strptime` /
`BASE_DIR /`. On a due, not-yet-triggered alarm with an existing sound
file it dispatches playback and records the alarm id. -/
def nanoAlarmBody (env : Env) (now : NanoNow) (st : TickSt) (a : Json) :
    Except PyErr TickSt := do
  let dayV ← a.getItem "day"
  let timeV ← a.getItem "time"
  let soundV ← a.getItem "sound"
  let alarmId := dayV.pystr ++ "_" ++ timeV.pystr ++ "_" ++ soundV.pystr
  let ts ← timeV.asString
  let hm ← match parseHHMM ts with
    | some p => Except.ok p
    | none => Except.error PyErr.valueError
  let timeDiff : Int := (now.hour * 60 + now.minute : Int) - (hm.1 * 60 + hm.2)
  if jstrEq dayV now.day ∧ 0 ≤ timeDiff ∧ timeDiff ≤ 1 ∧
      ¬ st.lastTriggered.contains alarmId then
    let ss ← soundV.asString
    if env.contains ss then
      .ok { lastTriggered := alarmId :: st.lastTriggered,
            fired := st.fired ++ [alarmId] }
    else
      .ok st
  else if 1 < timeDiff ∧ st.lastTriggered.contains alarmId then
    .ok { st with lastTriggered := st.lastTriggered.erase alarmId }
  else
    .ok st

/-- The for-loop of one tick: `KeyError` and `ValueError` are caught per
alarm (the record is skipped and the loop continues); any other exception
escapes to the outer handler of the while-loop, aborting the rest of this
tick (the boolean result records whether that happened). -/
def nanoTickFold (env : Env) (now : NanoNow) :
    List Json → TickSt → TickSt × Bool
  | [], st => (st, false)
  | a :: rest, st =>
      match nanoAlarmBody env now st a with
      | .ok st1 => nanoTickFold env now rest st1
      | .error .keyError => nanoTickFold env now rest st
      | .error .valueError => nanoTickFold env now rest st
      | .error _ => (st, true)

/-- One complete tick of `alarm_loop`: run the for-loop, then — only when
no exception escaped — clear the whole `last_triggered` set if the
current second is 0. Result: (new dedup set, dispatched ids, aborted?). -/
def nanoTick (env : Env) (now : NanoNow) (alarms : List Json)
    (lastTriggered : List String) : List String × List String × Bool :=
  match nanoTickFold env now alarms { lastTriggered := lastTriggered, fired := [] } with
  | (st, false) =>
      (if now.second = 0 then [] else st.lastTriggered, st.fired, false)
  | (st, true) => (st.lastTriggered, st.fired, true)

/-- A run of `alarm_loop` over a sequence of observed instants, reloading
the alarm list from disk each tick exactly as the loop calls
`get_alarms()`; returns all playback dispatches in order. -/
def nanoRun (env : Env) (disk : FileContent) :
    List NanoNow → List String → List String
  | [], _ => []
  | now :: rest, lastTriggered =>
      let r := nanoTick env now (nanoGetAlarms disk env) lastTriggered
      r.2.1 ++ nanoRun env disk rest r.1

/-! ### The service scheduler tick (`check_alarms` of vcns_timer_service.py) -/

/-- Processing of one record inside the for-loop of `check_alarms`:
`alarm.get("day")`/`alarm.get("time")` compared to the current strings,
`alarm.get("sound", "")` joined onto `BASE_DIR`. All exceptions of this
body (including the `AttributeError` of `.get` on a non-dict) are caught
by the per-alarm `except`, so the step is total; the result is the sound
path dispatched to a player thread, if any. -/
def vcnsStep (env : Env) (curDay curTime : String) (a : Json) : Option String :=
  match a with
  | .obj kvs =>
      if jstrEq ((jlookup kvs "day").getD .null) curDay ∧
          jstrEq ((jlookup kvs "time").getD .null) curTime then
        match (jlookup kvs "sound").getD (.str "") with
        | .str ss => if env.contains ss then some ss else none
        | _ => none
      else
        none
  | _ => none

/-- All playback dispatches of one processed minute of `check_alarms`. -/
def vcnsDispatches (env : Env) (curDay curTime : String)
    (alarms : List Json) : List String :=
  alarms.filterMap (vcnsStep env curDay curTime)

/-! ### Locks (save/load serialization) -/

/-- Acquire/release events on one `threading.Lock` issued by a single
thread, in program order. -/
inductive LockOp where
  | acq : LockOp
  | rel : LockOp
deriving DecidableEq, Repr

/-- Execution of a lock trace by one thread on a non-reentrant
`threading.Lock` (`held` counts how often this thread holds the lock).
Acquiring a lock the thread already holds blocks forever; `none` means
the trace never completes. -/
def runLockOps : List LockOp → Nat → Option Nat
  | [], held => some held
  | .acq :: rest, held => if held = 0 then runLockOps rest 1 else none
  | .rel :: rest, held => runLockOps rest (held - 1)

/-- Lock events of `safe_file_write` (nano variant): the whole write
attempt runs inside `with file_lock`. -/
def safeFileWriteLockOps : List LockOp := [.acq, .rel]

/-- Lock events of nano `save_alarms`: it takes `file_lock` itself and
then calls `safe_file_write`, which takes the same lock again. -/
def nanoSaveAlarmsLockOps : List LockOp :=
  [.acq] ++ safeFileWriteLockOps ++ [.rel]

/-- Lock events of vcns `save_alarms`: `alarms_lock` is held only around
copying the global list; the file operations run outside it. -/
def vcnsSaveAlarmsLockOps : List LockOp := [.acq, .rel]

/-! ### Bounded playback (`play_sound` of both variants) -/

/-- The polling loop of `play_sound`: while the sound is still busy
(`elapsed < d`, with `d` the sound's natural length) and the configured
ring duration has not elapsed, sleep 0.1 s. Time is measured in tenths of
a second; `ringT = 10 * RING_DURATION`. Returns the elapsed time at loop
exit. -/
def pollLoop (d : Nat) : Nat → Nat → Nat
  | 0, e => e
  | r + 1, e => if e < d then pollLoop d r (e + 1) else e

/-- Elapsed time at loop exit, starting from 0: the remaining poll
budget `ringT - e` drives the recursion, so `pollLoop` receives `ringT`
steps (the loop condition `e < ringT` is exactly budget exhaustion). -/
def pollExit (d ringT : Nat) : Nat :=
  pollLoop d ringT 0

/-- Full `play_sound` behaviour after the loop: if the sound is still
busy it is stopped. Result: (effective playback length in tenths,
whether `stop()` was called). -/
def playResult (d ringT : Nat) : Nat × Bool :=
  let e := pollExit d ringT
  if e < d then (e, true) else (d, false)

/-- Constant `RING_DURATION` of nano_web_timer.py, in tenths of a second. -/
def nanoRingTenths : Nat := 10 * 20

/-- Constant `RING_DURATION` of vcns_timer_service.py, in tenths of a second. -/
def vcnsRingTenths : Nat := 10 * 60

/-! ### Add / edit validation (C6, C10) -/

/-- Outcome of an alarm CRUD request: success carrying the stored record,
a 4xx rejection, or a 500 from the handler's outer `except`. -/
inductive ApiOutcome where
  | ok (alarm : Json) : ApiOutcome
  | clientErr : ApiOutcome
  | serverErr : ApiOutcome
deriving DecidableEq, Repr

/-- Failure class raised while validating request data. -/
inductive ApiFail where
  | client : ApiFail
  | server : ApiFail
deriving DecidableEq, Repr

/-- Python truthiness of a parsed JSON value (`not data`). -/
def jFalsy : Json → Bool
  | .null => true
  | .bool b => !b
  | .num n => n == 0
  | .str s => s.isEmpty
  | .arr xs => xs.isEmpty
  | .obj kvs => kvs.isEmpty

/-- Python `k in data`: key membership for dicts, element membership for
lists, substring test for strings, `TypeError` otherwise. -/
def jHasKey : Json → String → Except PyErr Bool
  | .obj kvs, k => .ok (jlookup kvs k).isSome
  | .arr xs, k => .ok (xs.any (fun v => jstrEq v k))
  | .str s, k => .ok (decide (k.toList <:+: s.toList))
  | _, _ => .error .typeError

/-- Constant `MAX_ALARMS` of vcns_timer_service.py. -/
def MAX_ALARMS : Nat := 50

/-- Check `sound_path.suffix.lower() == ".wav"` for the stored sound
string: the lower-cased name ends in `.wav`. -/
def wavOk (s : String) : Bool :=
  (".wav".data).isSuffixOf (s.data.map Char.toLower)

/-- The `if not data or not all(key in data for key in ["day", "time",
"sound"])` guard shared verbatim by `add_alarm` and `edit_alarm` of
vcns_timer_service.py (a `TypeError` from the membership tests reaches
the handler's outer `except`, hence a server failure). -/
def vcnsRequiredOk (d : Json) : Except ApiFail Unit :=
  if jFalsy d then .error .client
  else
    match jHasKey d "day", jHasKey d "time", jHasKey d "sound" with
    | .ok b1, .ok b2, .ok b3 =>
        if b1 && b2 && b3 then .ok () else .error .client
    | _, _, _ => .error .server

/-- The day/time/sound validation block shared verbatim by `add_alarm`
and `edit_alarm` of vcns_timer_service.py, producing the record that is
appended to / stored in `ALARMS` when every check passes. Non-string
`time` or `sound` values raise `TypeError` inside the handler's `try`,
surfacing as a 500. -/
def vcnsBuildAlarm (env : Env) (d : Json) : Except ApiFail Json :=
  match d.getItem "day" with
  | .error _ => .error .server
  | .ok dayV =>
    if ¬ jstrMem dayV serviceDays then .error .client
    else
      match d.getItem "time" with
      | .error _ => .error .server
      | .ok timeV =>
        match timeV with
        | .str ts =>
          match parseHHMM ts with
          | none => .error .client
          | some _ =>
            match d.getItem "sound" with
            | .error _ => .error .server
            | .ok soundV =>
              match soundV with
              | .str ss =>
                if ¬ env.contains ss then .error .client
                else if ¬ wavOk ss then .error .client
                else
                  let labelV :=
                    match d with
                    | .obj kvs => (jlookup kvs "label").getD (.str "Alarm")
                    | _ => .str "Alarm"
                  .ok (.obj [("day", dayV), ("time", timeV),
                             ("label", labelV), ("sound", soundV)])
              | _ => .error .server
        | _ => .error .server

/-- Handler `add_alarm` (POST /api/alarms) of vcns_timer_service.py: field
presence, the `MAX_ALARMS` cap, then day/time/sound validation; only a
fully validated record is appended. `data` is the result of
`request.get_json()` (`none` when the body is not JSON). -/
def vcnsAddAlarm (env : Env) (store : List Json) (data : Option Json) :
    List Json × ApiOutcome :=
  match data with
  | none => (store, .clientErr)
  | some d =>
    match vcnsRequiredOk d with
    | .error .client => (store, .clientErr)
    | .error .server => (store, .serverErr)
    | .ok () =>
      if MAX_ALARMS ≤ store.length then (store, .clientErr)
      else
        match vcnsBuildAlarm env d with
        | .error .client => (store, .clientErr)
        | .error .server => (store, .serverErr)
        | .ok alarm => (store ++ [alarm], .ok alarm)

/-- Handler `edit_alarm` (PUT /api/alarms/index) of vcns_timer_service.py:
bounds check, field presence, day/time/sound validation, then in-place
replacement of the indexed record. -/
def vcnsEditAlarm (env : Env) (store : List Json) (idx : Nat)
    (data : Option Json) : List Json × ApiOutcome :=
  if store.length ≤ idx then (store, .clientErr)
  else
    match data with
    | none => (store, .clientErr)
    | some d =>
      match vcnsRequiredOk d with
      | .error .client => (store, .clientErr)
      | .error .server => (store, .serverErr)
      | .ok () =>
        match vcnsBuildAlarm env d with
        | .error .client => (store, .clientErr)
        | .error .server => (store, .serverErr)
        | .ok alarm => (store.set idx alarm, .ok alarm)

/-- Whitespace test of Python `str.strip()` (the whitespace classes that
occur in form labels). -/
def pySpace (c : Char) : Bool :=
  c = ' ' || c = '\t' || c = '\n' || c = '\r'

/-- Python `s.strip()`: leading and trailing whitespace removed. -/
def pyStrip (s : String) : String :=
  String.mk (((s.data.dropWhile pySpace).reverse.dropWhile pySpace).reverse)

/-- Handler `set_alarm` (POST /set_alarm) of nano_web_timer.py: the form fields
(each absent when not sent), validated in source order — day membership,
`strptime` + `strftime` normalisation of the time, sound-file existence —
and on success the new record appended to the loaded list. A missing
time or sound raises `TypeError` inside the handler's `try`, caught by
its outer `except`, leaving the store unchanged. -/
def nanoSetAlarm (env : Env) (store : List Json)
    (day timeStr label sound : Option String) : List Json × Bool :=
  let lab :=
    match label with
    | none => "Alarm"
    | some l => if (pyStrip l).isEmpty then "Alarm" else pyStrip l
  match day with
  | none => (store, false)
  | some d =>
    if ¬ validDays.contains d then (store, false)
    else
      match timeStr with
      | none => (store, false)
      | some ts =>
        match parseHHMM ts with
        | none => (store, false)
        | some hm =>
          match sound with
          | none => (store, false)
          | some s =>
            if env.contains s then
              (store ++ [Json.obj [("day", .str d),
                                   ("time", .str (formatHHMM hm.1 hm.2)),
                                   ("label", .str lab), ("sound", .str s)]],
               true)
            else (store, false)

/-- Sort key of nano `edit_alarm`:
`(day_order.get(x.get("day"), 7), datetime.strptime(x["time"], "%H:%M"))`.
The day lookup defaults to 7 for unknown or non-string days; the time
access and parse can raise, which aborts the whole sort. -/
def nanoSortKey (a : Json) : Except PyErr (Nat × Nat × Nat) :=
  match a with
  | .obj kvs =>
      let dk :=
        match jlookup kvs "day" with
        | some (.str s) => (validDays.indexOf? s).getD 7
        | _ => 7
      match jlookup kvs "time" with
      | none => .error .keyError
      | some (.str ts) =>
          match parseHHMM ts with
          | some hm => .ok (dk, hm.1, hm.2)
          | none => .error .valueError
      | some _ => .error .typeError
  | _ => .error .attributeError

/-- Keys of every record, computed before comparing (an exception while
computing any key aborts the sort). -/
def nanoSortKeys : List Json → Except PyErr (List ((Nat × Nat × Nat) × Json))
  | [] => .ok []
  | a :: rest => do
      let k ← nanoSortKey a
      let r ← nanoSortKeys rest
      .ok ((k, a) :: r)

/-- Strict lexicographic order on sort keys. -/
def keyLt (k1 k2 : Nat × Nat × Nat) : Bool :=
  k1.1 < k2.1 || (k1.1 == k2.1 && (k1.2.1 < k2.2.1 ||
    (k1.2.1 == k2.2.1 && k1.2.2 < k2.2.2)))

/-- Stable insertion: a record goes after every record with an equal or
smaller key (Python `list.sort` is stable). -/
def insertByKey (x : (Nat × Nat × Nat) × Json) :
    List ((Nat × Nat × Nat) × Json) → List ((Nat × Nat × Nat) × Json)
  | [] => [x]
  | y :: ys => if keyLt x.1 y.1 then x :: y :: ys else y :: insertByKey x ys

/-- Insertion sort over keyed records. -/
def insertionSort : List ((Nat × Nat × Nat) × Json) →
    List ((Nat × Nat × Nat) × Json)
  | [] => []
  | x :: xs => insertByKey x (insertionSort xs)

/-- Call `alarms.sort(key=...)` of nano `edit_alarm`. -/
def nanoSortAlarms (xs : List Json) : Except PyErr (List Json) := do
  let keyed ← nanoSortKeys xs
  .ok ((insertionSort keyed).map Prod.snd)

/-- Handler `edit_alarm` (POST /edit_alarm/index) of nano_web_timer.py:
bounds check on the loaded list, verbatim replacement of the indexed
record by the form fields — with no day, time-format or sound-existence
validation — then the sort and save. An exception from the sort key
(for example an unparseable time) escapes to Flask as a 500 with the
persisted file unchanged. -/
def nanoEditAlarm (store : List Json) (idx : Nat)
    (day timeStr label sound : String) : List Json × Bool :=
  if idx < store.length then
    let newRec : Json := .obj [("day", .str day), ("time", .str timeStr),
                               ("label", .str label), ("sound", .str sound)]
    match nanoSortAlarms (store.set idx newRec) with
    | .ok sorted => (sorted, true)
    | .error _ => (store, false)
  else (store, false)

/-! ### Persisted document shape (C7) -/

/-- A record carrying the four alarm fields. -/
def recordShape (a : Json) : Bool :=
  match a with
  | .obj kvs =>
      (jlookup kvs "day").isSome && (jlookup kvs "time").isSome &&
      (jlookup kvs "label").isSome && (jlookup kvs "sound").isSome
  | _ => false

/-- Modelled from the spec: the claimed shape of the persisted document —
a JSON document whose top level is an object with the key `alarms`
mapping to an array of objects each having the fields day, time, label
and sound. Stated from the spec's words for comparison with the two
save functions. -/
def specDocShape (fc : FileContent) : Bool :=
  match fc with
  | .doc (.obj kvs) =>
      match jlookup kvs "alarms" with
      | some (.arr xs) => xs.all recordShape
      | _ => false
  | _ => false

/-- Alarm invariant of the service variant, as enforced by its add/edit
validation: valid weekday, parseable HH:MM string, existing `.wav` sound. -/
def vcnsAlarmInvariant (env : Env) (a : Json) : Bool :=
  match a with
  | .obj kvs =>
      jstrMem ((jlookup kvs "day").getD .null) serviceDays &&
      (match (jlookup kvs "time").getD .null with
       | .str ts => (parseHHMM ts).isSome
       | _ => false) &&
      (match (jlookup kvs "sound").getD .null with
       | .str ss => env.contains ss && wavOk ss
       | _ => false)
  | _ => false

/-- Alarm invariant of the nano variant's add validation: valid weekday,
canonical HH:MM time, existing sound file. -/
def nanoAlarmInvariant (env : Env) (a : Json) : Bool :=
  match a with
  | .obj kvs =>
      jstrMem ((jlookup kvs "day").getD .null) validDays &&
      (match (jlookup kvs "time").getD .null with
       | .str ts => (parseHHMM ts).isSome
       | _ => false) &&
      (match (jlookup kvs "sound").getD .null with
       | .str ss => env.contains ss
       | _ => false)
  | _ => false

/-- The spec's example alarm record:
day Monday, time 07:00, label Wake, sound a.wav. -/
def wakeAlarm : Json :=
  .obj [("day", .str "Monday"), ("time", .str "07:00"),
        ("label", .str "Wake"), ("sound", .str "a.wav")]

/-! ## Theorems -/

/-- Closed form of the polling loop: it advances the elapsed counter
until the sound ends or the budget runs out. -/
theorem pollLoop_eq (d : Nat) :
    ∀ r e, pollLoop d r e = if e < d then min d (e + r) else e := by
  intro r
  induction r with
  | zero =>
      intro e
      by_cases h : e < d
      · rw [pollLoop, if_pos h]
        omega
      · rw [pollLoop, if_neg h]
  | succ r ih =>
      intro e
      by_cases h : e < d
      · rw [pollLoop, if_pos h, ih (e + 1), if_pos h]
        by_cases h2 : e + 1 < d
        · rw [if_pos h2]
          omega
        · rw [if_neg h2]
          omega
      · rw [pollLoop, if_neg h, if_neg h]

/-- Closed form of `play_sound`: the effective playback length is the
minimum of the sound's natural length and the ring budget, and `stop()`
fires exactly when the sound outlives the budget. -/
theorem playResult_eq (d ringT : Nat) :
    playResult d ringT = (min d ringT, decide (ringT < d)) := by
  unfold playResult pollExit
  rw [pollLoop_eq]
  by_cases hd : 0 < d
  · rw [if_pos hd]
    by_cases h2 : ringT < d
    · rw [if_pos (by omega : min d (0 + ringT) < d)]
      have : min d (0 + ringT) = min d ringT := by omega
      rw [this]
      simp [h2]
    · rw [if_neg (by omega : ¬ min d (0 + ringT) < d)]
      have : d = min d ringT := by omega
      rw [← this]
      simp
      omega
  · have hd0 : d = 0 := by omega
    subst hd0
    simp

/-- C9: for every dispatched playback, the sound-playing routine of each
variant stops playback once the configured ring duration (20 s in the
nano variant, 60 s in the service variant, both measured here in tenths
of a second) has elapsed, so the effective playback length never exceeds
the ring duration and a longer sound is explicitly stopped. -/
theorem play_sound_enforces_ring_duration (d : Nat) :
    playResult d nanoRingTenths = (min d nanoRingTenths, decide (nanoRingTenths < d)) ∧
    playResult d vcnsRingTenths = (min d vcnsRingTenths, decide (vcnsRingTenths < d)) ∧
    (playResult d nanoRingTenths).1 ≤ nanoRingTenths ∧
    (playResult d vcnsRingTenths).1 ≤ vcnsRingTenths := by
  refine ⟨playResult_eq d nanoRingTenths, playResult_eq d vcnsRingTenths, ?_, ?_⟩ <;>
    rw [playResult_eq] <;> simp

/-- C8: evaluation of the lock behaviour of nano_web_timer's
`save_alarms` at its failing input (the lock initially free). The
function takes the non-reentrant `file_lock` and then calls
`safe_file_write`, which acquires the same lock from the same thread, so
the acquire sequence never completes: every invocation of the nano
`save_alarms` deadlocks before writing anything. `safe_file_write`
called alone and the service variant's `save_alarms` both complete. -/
theorem nano_save_alarms_deadlocks :
    runLockOps nanoSaveAlarmsLockOps 0 = none ∧
    runLockOps safeFileWriteLockOps 0 = some 0 ∧
    runLockOps vcnsSaveAlarmsLockOps 0 = some 0 := by
  decide

/-- C1: evaluation of nano_web_timer's `alarm_loop` at the claim's
failing input. The store holds the Monday 07:00 alarm with an existing
sound file; the loop (1-second ticks) observes Monday 07:00:00 and
Monday 07:00:01 starting from an empty `last_triggered` set. The first
tick fires the alarm and then — because `now.second == 0` — clears the
dedup set in the same iteration, so the second tick inside the same
matching minute fires the same alarm again: playback is dispatched
twice, not once, within the matching minute. -/
theorem nano_alarm_loop_double_fires_in_matching_minute :
    nanoRun ["a.wav"] (.doc (.arr [wakeAlarm]))
      [⟨"Monday", 7, 0, 0⟩, ⟨"Monday", 7, 0, 1⟩] [] =
      ["Monday_07:00_a.wav", "Monday_07:00_a.wav"] := by
  decide

/-- C2 counterexample: in the service variant's save, after the initial
rename of the target to the backup path, the alarms path holds no file
at all — neither the previous nor the new complete version — so the
claim that every observable instant shows the old or the new version is
false on this concrete save (old content 0, new content 1). -/
theorem vcns_save_exposes_absent_target :
    ¬ (∀ d ∈ saveTrace (initDisk 0) (vcnsSaveOps 1),
        d.target = .complete 0 ∨ d.target = .complete 1) := by
  decide

/-- C2 (amended): both saves write the new content to a temporary file
and rename it over the target, so the alarms path never shows a
half-written file. In the nano variant (`safe_file_write`), every
observable state — including after a crash at any point — shows the old
or the new complete version at the target. In the service variant, the
target can additionally be absent (its save first renames the target to
the `.bak` backup), and whenever it is absent the old complete version
survives at the backup path. -/
theorem save_never_shows_half_written (oldC newC : Nat) :
    (∀ d ∈ saveTrace (initDisk oldC) (nanoSaveOps newC),
       d.target = .complete oldC ∨ d.target = .complete newC) ∧
    (∀ d ∈ saveTrace (initDisk oldC) (vcnsSaveOps newC),
       (∀ c, d.target ≠ .halfWritten c) ∧
       (d.target = .absent → d.bak = .complete oldC) ∧
       (d.target = .complete oldC ∨ d.target = .complete newC ∨
        d.target = .absent)) := by
  constructor
  · intro d hd
    simp [saveTrace, nanoSaveOps, midStates, applyFsOp, initDisk,
          Disk.set, Disk.get] at hd
    rcases hd with h | h | h | h <;> subst h <;> simp
  · intro d hd
    simp [saveTrace, vcnsSaveOps, midStates, applyFsOp, initDisk,
          Disk.set, Disk.get] at hd
    rcases hd with h | h | h | h | h <;> subst h <;> simp

/-- Witness for C2's amended theorem at concrete contents 0 and 1. -/
theorem save_never_shows_half_written_witness :
    (∀ d ∈ saveTrace (initDisk 0) (nanoSaveOps 1),
       d.target = .complete 0 ∨ d.target = .complete 1) ∧
    (∀ d ∈ saveTrace (initDisk 0) (vcnsSaveOps 1),
       (∀ c, d.target ≠ .halfWritten c) ∧
       (d.target = .absent → d.bak = .complete 0) ∧
       (d.target = .complete 0 ∨ d.target = .complete 1 ∨
        d.target = .absent)) :=
  save_never_shows_half_written 0 1

/-- C3 counterexample: a syntactically valid document whose `alarms` key
maps to a JSON string is not reset to the empty list by the service
variant's `load_alarms`; the string is stored as the alarm store (the
subsequent `len()` succeeds on strings, so the resetting handler never
runs). -/
theorem vcns_load_keeps_nonlist_alarms_value :
    vcnsLoadAlarms (.arr []) (.doc (.obj [("alarms", .str "oops")])) =
      .str "oops" ∧
    Json.str "oops" ≠ .arr [] := by
  decide

/-- C3 (amended): neither load ever raises. The nano `get_alarms`
returns the empty list for a missing file, unparseable JSON, and any
non-list document; the service `load_alarms` keeps the previous store
for a missing file (the empty list at its only call site), and resets
to the empty list for unparseable JSON and any non-dict document, while
a dict document with an `alarms` array yields exactly that array. (The
exception — a dict whose `alarms` key holds a non-list sized value,
which is stored verbatim — is the counterexample above.) -/
theorem load_never_raises_defaults_empty (env : Env) (prev : Json)
    (xs : List Json) :
    nanoGetAlarms .missing env = [] ∧
    nanoGetAlarms .invalidJson env = [] ∧
    (∀ j : Json, (∀ ys, j ≠ .arr ys) → nanoGetAlarms (.doc j) env = []) ∧
    vcnsLoadAlarms prev .missing = prev ∧
    vcnsLoadAlarms prev .invalidJson = .arr [] ∧
    (∀ j : Json, (∀ kk, j ≠ .obj kk) → vcnsLoadAlarms prev (.doc j) = .arr []) ∧
    vcnsLoadAlarms prev (.doc (.obj [("alarms", .arr xs)])) = .arr xs := by
  refine ⟨rfl, rfl, ?_, rfl, rfl, ?_, rfl⟩
  · intro j hj
    cases j <;> first | rfl | exact absurd rfl (hj _)
  · intro j hj
    cases j <;> first | rfl | exact absurd rfl (hj _)

/-- Witness for C3's amended theorem at concrete file states. -/
theorem load_never_raises_defaults_empty_witness :
    nanoGetAlarms (.doc (.num 3)) ["a.wav"] = [] ∧
    vcnsLoadAlarms (.str "prev") (.doc (.num 3)) = .arr [] ∧
    vcnsLoadAlarms (.str "prev") (.doc (.obj [("alarms", .arr [wakeAlarm])])) =
      .arr [wakeAlarm] := by
  have h := load_never_raises_defaults_empty ["a.wav"] (.str "prev") [wakeAlarm]
  exact ⟨h.2.2.1 (.num 3) (fun ys hy => Json.noConfusion hy),
         h.2.2.2.2.2.1 (.num 3) (fun kk hk => Json.noConfusion hk),
         h.2.2.2.2.2.2⟩

/-- Validation keeps exactly the valid records, in order: when every
record of the list validates, the loop returns the list unchanged. -/
theorem nanoValidateList_all_valid (env : Env) :
    ∀ xs : List Json, (∀ a ∈ xs, nanoValidateRecord env a = .ok true) →
      nanoValidateList env xs = .ok xs := by
  intro xs
  induction xs with
  | nil => intro _; rfl
  | cons a rest ih =>
      intro h
      have ha := h a (List.mem_cons_self a rest)
      have hr := ih (fun b hb => h b (List.mem_cons_of_mem a hb))
      simp [nanoValidateList, Bind.bind, Except.bind, ha, hr]

/-- C4 counterexample: a persisted list holding the spec's example
record, with its sound file absent from disk, does not survive
`save(load())` in the nano variant: `get_alarms` drops the record (its
sound file does not exist), so the round trip persists the empty list —
the record is lost. -/
theorem nano_roundtrip_loses_record :
    nanoRoundTrip [] (.doc (.arr [wakeAlarm])) = .doc (.arr []) ∧
    FileContent.doc (.arr []) ≠ .doc (.arr [wakeAlarm]) := by
  decide

/-- C4 (amended): the round trip `save(load())` preserves every record
that passes nano's load-time validation (a dict carrying the four
fields, a valid weekday, a parseable HH:MM time, and a sound file that
exists at load time) with all field values unchanged, and the service
variant round-trips a well-formed document verbatim; records failing
nano's validation are dropped by `get_alarms` and therefore lost. -/
theorem roundtrip_preserves_validated_records (env : Env) (xs : List Json)
    (prev : Json) (h : ∀ a ∈ xs, nanoValidateRecord env a = .ok true) :
    nanoRoundTrip env (.doc (.arr xs)) = .doc (.arr xs) ∧
    vcnsRoundTrip prev (.doc (.obj [("alarms", .arr xs)])) =
      .doc (.obj [("alarms", .arr xs)]) := by
  constructor
  · have hv := nanoValidateList_all_valid env xs h
    simp [nanoRoundTrip, nanoGetAlarms, nanoSaveContent, hv]
  · rfl

/-- Witness for C4's amended theorem: the spec's example record with its
sound file present round-trips unchanged in both variants. -/
theorem roundtrip_preserves_validated_records_witness :
    nanoRoundTrip ["a.wav"] (.doc (.arr [wakeAlarm])) =
      .doc (.arr [wakeAlarm]) ∧
    vcnsRoundTrip (.arr []) (.doc (.obj [("alarms", .arr [wakeAlarm])])) =
      .doc (.obj [("alarms", .arr [wakeAlarm])]) :=
  roundtrip_preserves_validated_records ["a.wav"] [wakeAlarm] (.arr [])
    (by decide)

/-- C5: during one scheduler tick, a malformed alarm entry (missing key
or unparseable time — raising `KeyError`/`ValueError` in the nano loop,
or simply never matching in the service loop) or an alarm whose sound
file does not exist contributes nothing to the tick and does not abort
it: the dispatches produced for all other alarms are exactly those of
the same tick without the bad entry, in both variants. -/
theorem bad_entry_skipped_others_still_fire (env : Env)
    (curDay curTime : String) (now : NanoNow) (xs ys : List Json)
    (bad : Json) (st : TickSt)
    (hv : vcnsStep env curDay curTime bad = none)
    (hn : ∀ s : TickSt, nanoAlarmBody env now s bad = .ok s ∨
          nanoAlarmBody env now s bad = .error .keyError ∨
          nanoAlarmBody env now s bad = .error .valueError) :
    vcnsDispatches env curDay curTime (xs ++ bad :: ys) =
      vcnsDispatches env curDay curTime (xs ++ ys) ∧
    nanoTickFold env now (xs ++ bad :: ys) st =
      nanoTickFold env now (xs ++ ys) st := by
  constructor
  · simp [vcnsDispatches, List.filterMap_append, List.filterMap_cons, hv]
  · induction xs generalizing st with
    | nil =>
        simp only [List.nil_append]
        rcases hn st with h | h | h <;> simp [nanoTickFold, h]
    | cons a rest ih =>
        simp only [List.cons_append, nanoTickFold]
        cases hba : nanoAlarmBody env now st a with
        | ok st1 => exact ih st1
        | error e =>
            cases e with
            | keyError => exact ih st
            | valueError => exact ih st
            | typeError => rfl
            | attributeError => rfl

/-- Witness for C5: a record lacking its `time` key sits between two due
alarms; both neighbours are still dispatched and the tick state is the
same as without the bad record — evaluated concretely for both loops. -/
theorem bad_entry_skipped_others_still_fire_witness :
    (vcnsDispatches ["a.wav", "b.wav"] "Monday" "07:00"
       [wakeAlarm, .obj [("day", .str "Monday")],
        .obj [("day", .str "Monday"), ("time", .str "07:00"),
              ("label", .str "B"), ("sound", .str "b.wav")]] =
     vcnsDispatches ["a.wav", "b.wav"] "Monday" "07:00"
       [wakeAlarm,
        .obj [("day", .str "Monday"), ("time", .str "07:00"),
              ("label", .str "B"), ("sound", .str "b.wav")]] ∧
     nanoTickFold ["a.wav", "b.wav"] ⟨"Monday", 7, 0, 30⟩
       [wakeAlarm, .obj [("day", .str "Monday")],
        .obj [("day", .str "Monday"), ("time", .str "07:00"),
              ("label", .str "B"), ("sound", .str "b.wav")]] ⟨[], []⟩ =
     nanoTickFold ["a.wav", "b.wav"] ⟨"Monday", 7, 0, 30⟩
       [wakeAlarm,
        .obj [("day", .str "Monday"), ("time", .str "07:00"),
              ("label", .str "B"), ("sound", .str "b.wav")]] ⟨[], []⟩) ∧
    vcnsDispatches ["a.wav", "b.wav"] "Monday" "07:00"
      [wakeAlarm, .obj [("day", .str "Monday")],
       .obj [("day", .str "Monday"), ("time", .str "07:00"),
             ("label", .str "B"), ("sound", .str "b.wav")]] =
      ["a.wav", "b.wav"] :=
  ⟨bad_entry_skipped_others_still_fire ["a.wav", "b.wav"] "Monday" "07:00"
     ⟨"Monday", 7, 0, 30⟩ [wakeAlarm]
     [.obj [("day", .str "Monday"), ("time", .str "07:00"),
            ("label", .str "B"), ("sound", .str "b.wav")]]
     (.obj [("day", .str "Monday")]) ⟨[], []⟩
     (by decide) (fun s => Or.inr (Or.inl rfl)),
   by decide⟩

/-- C10: the add endpoint of the service variant enforces `MAX_ALARMS`:
whenever the store already holds at least 50 alarms the request is
rejected (no success outcome) with the stored list unchanged, and in
general an add can never push the store beyond 50 entries (its length
stays at most `max` of the previous length and 50). -/
theorem add_alarm_enforces_cap (env : Env) (store : List Json)
    (data : Option Json) :
    (MAX_ALARMS ≤ store.length →
       (vcnsAddAlarm env store data).1 = store ∧
       ∀ a, (vcnsAddAlarm env store data).2 ≠ .ok a) ∧
    (vcnsAddAlarm env store data).1.length ≤ max store.length MAX_ALARMS := by
  cases data with
  | none =>
      exact ⟨fun _ => ⟨rfl, fun a h => ApiOutcome.noConfusion h⟩,
             Nat.le_max_left _ _⟩
  | some d =>
      simp only [vcnsAddAlarm]
      cases hr : vcnsRequiredOk d with
      | error e =>
          cases e <;>
            exact ⟨fun _ => ⟨rfl, fun a h => ApiOutcome.noConfusion h⟩,
                   Nat.le_max_left _ _⟩
      | ok u =>
          cases u
          by_cases hcap : MAX_ALARMS ≤ store.length
          · rw [if_pos hcap]
            exact ⟨fun _ => ⟨rfl, fun a h => ApiOutcome.noConfusion h⟩,
                   Nat.le_max_left _ _⟩
          · rw [if_neg hcap]
            cases hb : vcnsBuildAlarm env d with
            | error e =>
                cases e <;>
                  exact ⟨fun hh => absurd hh hcap, Nat.le_max_left _ _⟩
            | ok alarm =>
                refine ⟨fun hh => absurd hh hcap, ?_⟩
                simp only [List.length_append, List.length_cons,
                           List.length_nil]
                omega

/-- Witness for C10: a store already holding 50 records rejects a fully
valid add request and stays unchanged. -/
theorem add_alarm_enforces_cap_witness :
    (vcnsAddAlarm ["a.wav"] (List.replicate 50 (Json.num 0))
       (some (.obj [("day", .str "Monday"), ("time", .str "07:00"),
                    ("sound", .str "a.wav")]))).1 =
      List.replicate 50 (Json.num 0) ∧
    ∀ a, (vcnsAddAlarm ["a.wav"] (List.replicate 50 (Json.num 0))
       (some (.obj [("day", .str "Monday"), ("time", .str "07:00"),
                    ("sound", .str "a.wav")]))).2 ≠ .ok a :=
  (add_alarm_enforces_cap ["a.wav"] (List.replicate 50 (Json.num 0))
     (some (.obj [("day", .str "Monday"), ("time", .str "07:00"),
                  ("sound", .str "a.wav")]))).1 (by decide)

/-- Field values produced by a successful strptime are within range. -/
theorem parseTimeField_le (cs : List Char) (mx v : Nat)
    (h : parseTimeField cs mx = some v) : v ≤ mx := by
  unfold parseTimeField at h
  split at h
  · cases h
  · split at h
    · change (if digitsVal cs 0 ≤ mx then some (digitsVal cs 0) else none) =
        some v at h
      split at h
      · injection h with h1
        omega
      · cases h
    · cases h

/-- Hours and minutes of a parsed time are within range. -/
theorem parseHHMM_le (ts : String) (hv mv : Nat)
    (hp : parseHHMM ts = some (hv, mv)) : hv ≤ 23 ∧ mv ≤ 59 := by
  unfold parseHHMM at hp
  split at hp
  · split at hp
    · rename_i heq1 heq2
      injection hp with h1
      injection h1 with e1 e2
      subst e1
      subst e2
      exact ⟨parseTimeField_le _ _ _ heq1, parseTimeField_le _ _ _ heq2⟩
    · cases hp
  · cases hp

/-- Round trip of the canonical rendering: `strptime` parses
`strftime("%H:%M")` output back to the same pair. -/
theorem parseHHMM_format (h m : Nat) (hh : h < 24) (hm : m < 60) :
    parseHHMM (formatHHMM h m) = some (h, m) := by
  have key : ∀ h1 < 24, ∀ m1 < 60, parseHHMM (formatHHMM h1 m1) = some (h1, m1) := by
    decide
  exact key h hh m hm

/-- A record built by the shared validation block of `add_alarm` /
`edit_alarm` (service variant) satisfies the alarm invariant and carries
all four fields. -/
theorem vcnsBuildAlarm_ok_invariant (env : Env) (d a : Json)
    (h : vcnsBuildAlarm env d = .ok a) :
    vcnsAlarmInvariant env a = true ∧ recordShape a = true := by
  simp only [vcnsBuildAlarm] at h
  repeat' split at h
  all_goals try cases h
  all_goals simp_all [vcnsAlarmInvariant, recordShape, jlookup]

/-- Outcome analysis of the service add handler: a success appends
exactly the validated record (which satisfies the invariant and the
four-field shape); any non-success leaves the store unchanged. -/
theorem vcnsAddAlarm_spec (env : Env) (store : List Json)
    (data : Option Json) :
    (∀ a, (vcnsAddAlarm env store data).2 = .ok a →
       vcnsAlarmInvariant env a = true ∧ recordShape a = true ∧
       (vcnsAddAlarm env store data).1 = store ++ [a]) ∧
    ((∀ a, (vcnsAddAlarm env store data).2 ≠ .ok a) →
       (vcnsAddAlarm env store data).1 = store) := by
  cases data with
  | none => exact ⟨fun a ha => ApiOutcome.noConfusion ha, fun _ => rfl⟩
  | some d =>
      simp only [vcnsAddAlarm]
      cases hr : vcnsRequiredOk d with
      | error e =>
          cases e <;>
            exact ⟨fun a ha => ApiOutcome.noConfusion ha, fun _ => rfl⟩
      | ok u =>
          cases u
          by_cases hcap : MAX_ALARMS ≤ store.length
          · rw [if_pos hcap]
            exact ⟨fun a ha => ApiOutcome.noConfusion ha, fun _ => rfl⟩
          · rw [if_neg hcap]
            cases hb : vcnsBuildAlarm env d with
            | error e =>
                cases e <;>
                  exact ⟨fun a ha => ApiOutcome.noConfusion ha, fun _ => rfl⟩
            | ok alarm =>
                constructor
                · intro a ha
                  injection ha with e1
                  subst e1
                  obtain ⟨h1, h2⟩ := vcnsBuildAlarm_ok_invariant env d _ hb
                  exact ⟨h1, h2, rfl⟩
                · intro hno
                  exact absurd rfl (hno alarm)

/-- Outcome analysis of the service edit handler: a success stores
exactly the validated record at the given index; any non-success leaves
the store unchanged. -/
theorem vcnsEditAlarm_spec (env : Env) (store : List Json) (idx : Nat)
    (data : Option Json) :
    (∀ a, (vcnsEditAlarm env store idx data).2 = .ok a →
       vcnsAlarmInvariant env a = true ∧ recordShape a = true ∧
       (vcnsEditAlarm env store idx data).1 = store.set idx a) ∧
    ((∀ a, (vcnsEditAlarm env store idx data).2 ≠ .ok a) →
       (vcnsEditAlarm env store idx data).1 = store) := by
  cases data with
  | none =>
      simp only [vcnsEditAlarm]
      by_cases hidx : store.length ≤ idx
      · rw [if_pos hidx]
        exact ⟨fun a ha => ApiOutcome.noConfusion ha, fun _ => rfl⟩
      · rw [if_neg hidx]
        exact ⟨fun a ha => ApiOutcome.noConfusion ha, fun _ => rfl⟩
  | some d =>
      simp only [vcnsEditAlarm]
      by_cases hidx : store.length ≤ idx
      · rw [if_pos hidx]
        exact ⟨fun a ha => ApiOutcome.noConfusion ha, fun _ => rfl⟩
      · rw [if_neg hidx]
        cases hr : vcnsRequiredOk d with
        | error e =>
            cases e <;>
              exact ⟨fun a ha => ApiOutcome.noConfusion ha, fun _ => rfl⟩
        | ok u =>
            cases u
            cases hb : vcnsBuildAlarm env d with
            | error e =>
                cases e <;>
                  exact ⟨fun a ha => ApiOutcome.noConfusion ha, fun _ => rfl⟩
            | ok alarm =>
                constructor
                · intro a ha
                  injection ha with e1
                  subst e1
                  obtain ⟨h1, h2⟩ := vcnsBuildAlarm_ok_invariant env d _ hb
                  exact ⟨h1, h2, rfl⟩
                · intro hno
                  exact absurd rfl (hno alarm)

/-- Outcome analysis of the nano add handler (`set_alarm`): either the
request is rejected with the store unchanged, or the validated record —
valid weekday, canonical re-rendered HH:MM time, existing sound — is
appended. -/
theorem nanoSetAlarm_cases (env : Env) (store : List Json)
    (day timeStr label sound : Option String) :
    ((nanoSetAlarm env store day timeStr label sound).1 = store ∧
     (nanoSetAlarm env store day timeStr label sound).2 = false) ∨
    (∃ a, (nanoSetAlarm env store day timeStr label sound).1 = store ++ [a] ∧
       (nanoSetAlarm env store day timeStr label sound).2 = true ∧
       nanoAlarmInvariant env a = true) := by
  rcases day with _ | d
  · exact Or.inl ⟨rfl, rfl⟩
  by_cases hd : d ∈ validDays
  case neg =>
    exact Or.inl ⟨by simp [nanoSetAlarm, hd], by simp [nanoSetAlarm, hd]⟩
  rcases timeStr with _ | ts
  · exact Or.inl ⟨by simp [nanoSetAlarm, hd], by simp [nanoSetAlarm, hd]⟩
  cases hts : parseHHMM ts with
  | none =>
      exact Or.inl ⟨by simp [nanoSetAlarm, hd, hts],
                    by simp [nanoSetAlarm, hd, hts]⟩
  | some hm =>
      rcases sound with _ | snd
      · exact Or.inl ⟨by simp [nanoSetAlarm, hd, hts],
                      by simp [nanoSetAlarm, hd, hts]⟩
      by_cases hs : snd ∈ env
      · refine Or.inr ⟨.obj [("day", .str d),
          ("time", .str (formatHHMM hm.1 hm.2)),
          ("label", .str (match label with
             | none => "Alarm"
             | some l => if (pyStrip l).isEmpty then "Alarm" else pyStrip l)),
          ("sound", .str snd)], ?_, ?_, ?_⟩
        · simp [nanoSetAlarm, hd, hts, hs]
        · simp [nanoSetAlarm, hd, hts, hs]
        · obtain ⟨hb1, hb2⟩ := parseHHMM_le ts hm.1 hm.2 hts
          simp [nanoAlarmInvariant, jlookup, jstrMem, hd, hs,
                parseHHMM_format hm.1 hm.2 (by omega) (by omega)]
      · exact Or.inl ⟨by simp [nanoSetAlarm, hd, hts, hs],
                      by simp [nanoSetAlarm, hd, hts, hs]⟩

/-- C6 counterexample: the nano edit handler (`edit_alarm` of
nano_web_timer.py) performs no validation: editing the stored example
alarm to day "Funday" (not a weekday) with sound "ghost.wav" (no such
file exists) succeeds, and the resulting store holds a record violating
the Alarm invariant. -/
theorem nano_edit_accepts_invalid_record :
    nanoEditAlarm [wakeAlarm] 0 "Funday" "07:00" "x" "ghost.wav" =
      ([.obj [("day", .str "Funday"), ("time", .str "07:00"),
              ("label", .str "x"), ("sound", .str "ghost.wav")]], true) ∧
    nanoAlarmInvariant ["a.wav"]
      (.obj [("day", .str "Funday"), ("time", .str "07:00"),
             ("label", .str "x"), ("sound", .str "ghost.wav")]) = false := by
  decide

/-- C6 (amended): the service variant's add and edit accept only records
satisfying the Alarm invariant (valid weekday, parseable HH:MM time,
existing `.wav` sound) and leave the store unchanged on any rejection;
the nano variant's add (`set_alarm`) likewise accepts only records with
a valid weekday, a canonical HH:MM time and an existing sound file, and
leaves the store unchanged otherwise. (The nano edit handler enforces
nothing — the counterexample above.) -/
theorem user_facing_ops_enforce_invariant (env : Env) (store : List Json)
    (data : Option Json) (idx : Nat)
    (day timeStr label sound : Option String) :
    (∀ a, (vcnsAddAlarm env store data).2 = .ok a →
       vcnsAlarmInvariant env a = true ∧
       (vcnsAddAlarm env store data).1 = store ++ [a]) ∧
    ((∀ a, (vcnsAddAlarm env store data).2 ≠ .ok a) →
       (vcnsAddAlarm env store data).1 = store) ∧
    (∀ a, (vcnsEditAlarm env store idx data).2 = .ok a →
       vcnsAlarmInvariant env a = true ∧
       (vcnsEditAlarm env store idx data).1 = store.set idx a) ∧
    ((∀ a, (vcnsEditAlarm env store idx data).2 ≠ .ok a) →
       (vcnsEditAlarm env store idx data).1 = store) ∧
    (((nanoSetAlarm env store day timeStr label sound).1 = store ∧
      (nanoSetAlarm env store day timeStr label sound).2 = false) ∨
     (∃ a, (nanoSetAlarm env store day timeStr label sound).1 = store ++ [a] ∧
        (nanoSetAlarm env store day timeStr label sound).2 = true ∧
        nanoAlarmInvariant env a = true)) := by
  refine ⟨?_, (vcnsAddAlarm_spec env store data).2, ?_,
          (vcnsEditAlarm_spec env store idx data).2,
          nanoSetAlarm_cases env store day timeStr label sound⟩
  · intro a ha
    obtain ⟨h1, _, h3⟩ := (vcnsAddAlarm_spec env store data).1 a ha
    exact ⟨h1, h3⟩
  · intro a ha
    obtain ⟨h1, _, h3⟩ := (vcnsEditAlarm_spec env store idx data).1 a ha
    exact ⟨h1, h3⟩

/-- Witness for C6's amended theorem: a fully valid add request in each
variant appends a record satisfying the invariant. -/
theorem user_facing_ops_enforce_invariant_witness :
    (vcnsAlarmInvariant ["a.wav"]
       (.obj [("day", .str "Monday"), ("time", .str "07:00"),
              ("label", .str "Alarm"), ("sound", .str "a.wav")]) = true ∧
     (vcnsAddAlarm ["a.wav"] []
        (some (.obj [("day", .str "Monday"), ("time", .str "07:00"),
                     ("sound", .str "a.wav")]))).1 =
       [] ++ [.obj [("day", .str "Monday"), ("time", .str "07:00"),
                    ("label", .str "Alarm"), ("sound", .str "a.wav")]]) ∧
    (vcnsAddAlarm ["a.wav"] []
       (some (.obj [("day", .str "Funday"), ("time", .str "07:00"),
                    ("sound", .str "a.wav")]))).1 = [] :=
  ⟨(user_facing_ops_enforce_invariant ["a.wav"] []
      (some (.obj [("day", .str "Monday"), ("time", .str "07:00"),
                   ("sound", .str "a.wav")])) 0 none none none none).1 _
     (by decide),
   (user_facing_ops_enforce_invariant ["a.wav"] []
      (some (.obj [("day", .str "Funday"), ("time", .str "07:00"),
                   ("sound", .str "a.wav")])) 0 none none none none).2.1
     (fun a ha => by
        rw [show (vcnsAddAlarm ["a.wav"] []
            (some (.obj [("day", .str "Funday"), ("time", .str "07:00"),
                         ("sound", .str "a.wav")]))).2 =
          ApiOutcome.clientErr from by decide] at ha
        exact ApiOutcome.noConfusion ha)⟩

/-- C7 counterexample: the nano variant's `save_alarms` persists
`json.dumps(alarms)` — a document whose top level is a JSON array, not
an object with an `alarms` key — even for a perfectly shaped record
list, so the claimed document shape is false for that variant's save. -/
theorem nano_save_not_object_shape :
    specDocShape (nanoSaveContent [wakeAlarm]) = false ∧
    recordShape wakeAlarm = true := by
  decide

/-- C7 (amended): the service variant's save writes a top-level object
whose `alarms` key holds the stored array, and that document has the
spec's claimed shape whenever every stored record carries the four
fields — a property the validated add endpoint preserves; the nano
variant's save instead always writes a top-level array and never
produces the claimed object shape. -/
theorem persisted_doc_shape (store : List Json) (env : Env)
    (data : Option Json) (h : ∀ a ∈ store, recordShape a = true) :
    specDocShape (vcnsSaveContent (.arr store)) = true ∧
    specDocShape (nanoSaveContent store) = false ∧
    (∀ a, (vcnsAddAlarm env store data).2 = .ok a →
       ∀ b ∈ (vcnsAddAlarm env store data).1, recordShape b = true) := by
  refine ⟨?_, rfl, ?_⟩
  · simp [specDocShape, vcnsSaveContent, jlookup, List.all_eq_true]
    exact h
  · intro a ha b hb
    obtain ⟨_, h2, h3⟩ := (vcnsAddAlarm_spec env store data).1 a ha
    rw [h3] at hb
    rcases List.mem_append.mp hb with hbs | hba
    · exact h b hbs
    · rw [List.mem_singleton.mp hba]
      exact h2

/-- Witness for C7's amended theorem at a singleton store. -/
theorem persisted_doc_shape_witness :
    specDocShape (vcnsSaveContent (.arr [wakeAlarm])) = true ∧
    specDocShape (nanoSaveContent [wakeAlarm]) = false ∧
    (∀ a, (vcnsAddAlarm ["a.wav"] [wakeAlarm] none).2 = .ok a →
       ∀ b ∈ (vcnsAddAlarm ["a.wav"] [wakeAlarm] none).1,
         recordShape b = true) :=
  persisted_doc_shape [wakeAlarm] ["a.wav"] none (by decide)

end BellNews
